import Mathlib

/-!
Shallow embedding of the parking-admin subscription billing core:
the Convex schema (src/unnamed/part_002), the Stripe webhook handlers
(src/convex/webhooks.ts and the later revision embedded in
src/convex/TESTING.md), the checkout orchestrator (src/convex/checkout.ts),
the HTTP webhook endpoints (src/convex/http.ts and src/unnamed/part_004),
the user-facing mutations (src/convex/http.ts) and the admin cancellation
action (src/unnamed/part_003).

Modelling conventions:
* Convex document ids are `String`s; `ctx.db.insert` takes the fresh id as
  an explicit argument; `ctx.db.patch` is a map over the table guarded by id.
* JavaScript `null`/`undefined` on string fields is `Option String`; the
  JS truthiness test `!x` on such a field is `optTruthy` (empty string and
  null are both falsy).
* `new Date().toISOString()` is threaded as an explicit `now : String`
  argument; `new Date(sec * 1000).toISOString()` is the injective rendering
  `isoOfEpochSeconds`, since no claim depends on the concrete date format.
* Handlers that can throw return `Except String _`; a thrown error carries
  the source's message.
-/

namespace ParkingAdmin

/-- JS truthiness of a nullable string field: `null`, `undefined` and the
empty string are falsy. -/
def optTruthy (o : Option String) : Bool :=
  o.getD "" != ""

/-- JS `a || d` for a nullable string `a` with string default `d`. -/
def jsOrStr (o : Option String) (d : String) : String :=
  if optTruthy o then o.getD "" else d

/-- Model of `parseInt` on the strings this codebase feeds it (seat counts
serialized with `toString`); a non-numeric string is rendered as 0. -/
def jsParseInt (s : String) : Int :=
  (s.toInt?).getD 0

/-- Model of `new Date(sec * 1000).toISOString()`: an injective rendering of
the epoch instant (the concrete ISO format is immaterial to the claims). -/
def isoOfEpochSeconds (sec : Int) : String :=
  "epoch:" ++ toString sec

/-- JS `String.prototype.toLowerCase`, character-wise. -/
def jsToLower (s : String) : String :=
  String.mk (s.data.map Char.toLower)

/-- JS `String.prototype.includes`. -/
def strIncludes (s pat : String) : Bool :=
  decide (pat.data <:+: s.data)

/-! Data model: the Convex schema (src/unnamed/part_002).
`dueDate` appears only in the insert performed by the
src/convex/webhooks.ts revision of `handleCheckoutCompleted`, so it is
optional here; the other writers leave it `none`. -/

/-- A row of the `subscriptions` table. -/
structure Subscription where
  _id : String
  userId : String
  garageId : String
  productId : String
  startDate : String
  endDate : Option String
  dueDate : Option String
  stripeSubscriptionId : String
  seats : Int
  createdAt : String
  updatedAt : String
  deriving DecidableEq

/-- A row of the `users` table. -/
structure User where
  _id : String
  firstName : String
  lastName : String
  email : Option String
  phone : Option String
  stripeUserId : Option String
  createdAt : String
  updatedAt : String
  deriving DecidableEq

/-- A row of the `garages` table (address fields elided: no modelled
operation reads or writes them). -/
structure Garage where
  _id : String
  name : String
  createdAt : String
  updatedAt : String
  deriving DecidableEq

/-- A row of the `products` table. -/
structure Product where
  _id : String
  name : String
  isActive : Bool
  type : String
  availableSeats : Int
  stripeProductId : Option String
  garageId : String
  createdAt : String
  updatedAt : String
  deriving DecidableEq

/-- A row of the `productPrices` table. -/
structure Price where
  _id : String
  productId : String
  isActive : Bool
  name : String
  amount : Int
  stripePriceId : Option String
  isPublic : Bool
  createdAt : String
  updatedAt : String
  deriving DecidableEq

/-- The `subscriptions` table. -/
abbrev SubDb := List Subscription

/-- Query `findSubscriptionByStripeId` (TESTING.md): filter the
`subscriptions` table on the `stripeSubscriptionId` field. -/
def findSubscriptionByStripeId (db : SubDb) (sid : String) : List Subscription :=
  db.filter (fun s => s.stripeSubscriptionId == sid)

/-- `ctx.db.patch` on the `subscriptions` table: rewrite the row(s) whose
`_id` matches. -/
def patchSubById (db : SubDb) (id : String) (f : Subscription → Subscription) : SubDb :=
  db.map (fun s => if s._id == id then f s else s)

/-- Internal mutation `updateSubscriptionStatus` (TESTING.md 1070-1081):
patch `endDate` (a required string argument) and `updatedAt`. -/
def updateSubscriptionStatus (now : String) (db : SubDb) (subscriptionId endDate : String) : SubDb :=
  patchSubById db subscriptionId (fun s => { s with endDate := some endDate, updatedAt := now })

/-- Internal mutation `updateSubscriptionInDb` (TESTING.md 1044-1065):
patch `updatedAt` always, `endDate` and `seats` only when provided. -/
def updateSubscriptionInDb (now : String) (db : SubDb) (subscriptionId : String)
    (endDate? : Option String) (seats? : Option Int) : SubDb :=
  patchSubById db subscriptionId (fun s =>
    { s with
      updatedAt := now
      endDate := match endDate? with | some e => some e | none => s.endDate
      seats := match seats? with | some q => q | none => s.seats })

/-- Internal mutation `createSubscription` (TESTING.md 1016-1039): insert a
fresh subscription row with `endDate := null`. -/
def createSubscription (now newId : String) (db : SubDb)
    (userId garageId productId startDate stripeSubscriptionId : String) (seats : Int) : SubDb :=
  db ++ [{ _id := newId, userId := userId, garageId := garageId, productId := productId,
           startDate := startDate, endDate := none, dueDate := none,
           stripeSubscriptionId := stripeSubscriptionId, seats := seats,
           createdAt := now, updatedAt := now }]

/-- Internal query `getSubscription` (TESTING.md 956-961): `ctx.db.get`. -/
def getSubscription (db : SubDb) (subscriptionId : String) : Option Subscription :=
  db.find? (fun s => s._id == subscriptionId)

/-- Internal action `expireSubscription` (TESTING.md 1086-1113): look the row
up, and only when `endDate === null` patch it to the current time. -/
def expireSubscription (now : String) (db : SubDb) (subscriptionId : String) : SubDb :=
  match getSubscription db subscriptionId with
  | none => db
  | some subscription =>
    if subscription.endDate == none then
      updateSubscriptionStatus now db subscriptionId now
    else db

/-- The metadata bag attached to checkout sessions / subscriptions; every
key may be absent. -/
structure SubMetadata where
  userId : Option String
  garageId : Option String
  productId : Option String
  priceId : Option String
  seats : Option String
  productName : Option String
  deriving DecidableEq

/-- Payload of a `customer.subscription.created` event. -/
structure SubscriptionCreatedEvent where
  id : String
  metadata : Option SubMetadata
  current_period_start : Int
  deriving DecidableEq

/-- Handler `handleSubscriptionCreated` (TESTING.md 733-775): reject on
missing metadata keys, deduplicate by `stripeSubscriptionId`, else insert. -/
def handleSubscriptionCreated (now newId : String) (db : SubDb)
    (ev : SubscriptionCreatedEvent) : SubDb :=
  match ev.metadata with
  | none => db
  | some m =>
    if !optTruthy m.userId || !optTruthy m.garageId
        || !optTruthy m.productId || !optTruthy m.priceId then db
    else if !(findSubscriptionByStripeId db ev.id).isEmpty then db
    else
      createSubscription now newId db (m.userId.getD "") (m.garageId.getD "")
        (m.productId.getD "") (isoOfEpochSeconds ev.current_period_start)
        ev.id (jsParseInt (jsOrStr m.seats "1"))

/-- Payload of a `checkout.session.completed` event. -/
structure CheckoutSessionEvent where
  id : String
  subscription : Option String
  metadata : Option SubMetadata
  deriving DecidableEq

/-- Model of the `dueDate` computed by `handleCheckoutCompleted`
(webhooks.ts 216-226): one year ahead for annual/yearly product names,
one month ahead otherwise; rendered injectively from `now`. -/
def checkoutDueDate (now productName : String) : String :=
  if strIncludes productName "annual" || strIncludes productName "yearly" then
    "plus1y:" ++ now
  else
    "plus1m:" ++ now

/-- Handler `handleCheckoutCompleted` (src/convex/webhooks.ts 205-247, also
TESTING.md 292-334): reject on missing metadata keys, then insert a
subscription row unconditionally — there is no lookup by external
subscription id before the insert. -/
def handleCheckoutCompleted (now newId : String) (db : SubDb)
    (ev : CheckoutSessionEvent) : SubDb :=
  match ev.metadata with
  | none => db
  | some m =>
    if !optTruthy m.userId || !optTruthy m.garageId
        || !optTruthy m.productId || !optTruthy m.priceId then db
    else
      let productName := jsOrStr (m.productName.map jsToLower) ""
      db ++ [{ _id := newId, userId := m.userId.getD "", garageId := m.garageId.getD "",
               productId := m.productId.getD "", startDate := now, endDate := none,
               dueDate := some (checkoutDueDate now productName),
               stripeSubscriptionId := jsOrStr ev.subscription ev.id,
               seats := jsParseInt (jsOrStr m.seats "1"),
               createdAt := now, updatedAt := now }]

/-- Payload of a `customer.subscription.updated` event; `quantity` is
`data.items?.data?.[0]?.quantity`. -/
structure SubscriptionUpdatedEvent where
  id : String
  quantity : Option Int
  status : String
  cancel_at_period_end : Bool
  canceled_at : Int
  deriving DecidableEq

/-- Handler `handleSubscriptionUpdated` (TESTING.md 777-822): find by
external id; update seats when a truthy quantity is present; set `endDate`
only when `status === "canceled"` and the row's `endDate` is still unset
(JS truthiness on `!subscription.endDate`). -/
def handleSubscriptionUpdated (now : String) (db : SubDb)
    (ev : SubscriptionUpdatedEvent) : SubDb :=
  match (findSubscriptionByStripeId db ev.id).head? with
  | none => db
  | some subscription =>
    let seatsArg : Option Int :=
      match ev.quantity with
      | some q => if q != 0 then some q else none
      | none => none
    let endDateArg : Option String :=
      if ev.status == "canceled" || ev.cancel_at_period_end then
        if ev.status == "canceled" && !optTruthy subscription.endDate then
          some (isoOfEpochSeconds ev.canceled_at)
        else none
      else none
    updateSubscriptionInDb now db subscription._id endDateArg seatsArg

/-- Payload of a `customer.subscription.deleted` event. -/
structure SubscriptionDeletedEvent where
  id : String
  canceled_at : Int
  deriving DecidableEq

/-- Handler `handleSubscriptionDeleted` (TESTING.md 824-859): find by
external id; only when `endDate === null` patch it to the event's
`canceled_at` instant. -/
def handleSubscriptionDeleted (now : String) (db : SubDb)
    (ev : SubscriptionDeletedEvent) : SubDb :=
  match (findSubscriptionByStripeId db ev.id).head? with
  | none => db
  | some subscription =>
    if subscription.endDate == none then
      updateSubscriptionStatus now db subscription._id (isoOfEpochSeconds ev.canceled_at)
    else db

/-- Payload of an `invoice.payment_failed` event. -/
structure InvoicePaymentFailedEvent where
  id : String
  subscription : String
  attempt_count : Int
  deriving DecidableEq

/-- Handler `handleInvoicePaymentFailed` (TESTING.md 865-908): find by
external id; at `attempt_count >= 3` run `expireSubscription`, otherwise
leave the row alone (grace period). -/
def handleInvoicePaymentFailed (now : String) (db : SubDb)
    (ev : InvoicePaymentFailedEvent) : SubDb :=
  match (findSubscriptionByStripeId db ev.subscription).head? with
  | none => db
  | some subscription =>
    if ev.attempt_count ≥ 3 then
      expireSubscription now db subscription._id
    else db

/-- Mutation `subscribe` (src/convex/http.ts 195-259): validate user,
garage and active product, refuse when an active subscription for the
same (user, garage, product) triple exists, else insert a row with
`endDate := null` and a demo external id. -/
def subscribe (now newId : String) (users : List User) (garages : List Garage)
    (products : List Product) (db : SubDb)
    (userId garageId productId : String) (seats : Int) : Except String (SubDb × String) :=
  match users.find? (fun u => u._id == userId) with
  | none => .error "User not found"
  | some _ =>
    match garages.find? (fun g => g._id == garageId) with
    | none => .error "Garage not found"
    | some _ =>
      match products.find? (fun p => p._id == productId) with
      | none => .error "Product not found"
      | some product =>
        if !product.isActive then .error "Product is not active"
        else
          match (db.filter (fun s =>
              s.userId == userId && s.garageId == garageId
                && s.productId == productId && s.endDate == none)).head? with
          | some _ => .error "User already has an active subscription for this product at this garage"
          | none =>
            .ok (db ++ [{ _id := newId, userId := userId, garageId := garageId,
                          productId := productId, startDate := now, endDate := none,
                          dueDate := none, stripeSubscriptionId := "demo_" ++ now,
                          seats := seats, createdAt := now, updatedAt := now }], newId)

/-- Mutation `cancelSubscription` (src/convex/http.ts 295-320): refuse when
missing or already cancelled (JS truthiness on `endDate`), else patch
`endDate` to the current time and return `success: true`. -/
def cancelSubscriptionMutation (now : String) (db : SubDb)
    (subscriptionId : String) : SubDb × Except String Bool :=
  match db.find? (fun s => s._id == subscriptionId) with
  | none => (db, .error "Subscription not found")
  | some subscription =>
    if optTruthy subscription.endDate then
      (db, .error "Subscription is already cancelled")
    else
      (patchSubById db subscriptionId
        (fun s => { s with endDate := some now, updatedAt := now }), .ok true)

/-- Result of the remote `cancelStripeSubscription` gateway call:
`{ success: true, ... } | { success: false, error }`. -/
inductive StripeCancelResult where
  | success (info : String)
  | failure (error : String)
  deriving DecidableEq

/-- Mutation `updateSubscriptionEndDate` (src/unnamed/part_003 1253-1271):
patch `endDate` after checking the row exists. -/
def updateSubscriptionEndDate (now : String) (db : SubDb)
    (subscriptionId endDate : String) : Except String SubDb :=
  match db.find? (fun s => s._id == subscriptionId) with
  | none => .error "Subscription not found"
  | some _ =>
    .ok (patchSubById db subscriptionId
      (fun s => { s with endDate := some endDate, updatedAt := now }))

/-- Action `cancelSubscription` (src/unnamed/part_003 1276-1305): when the
row carries a truthy Stripe subscription id, cancel remotely first and
abort with an error when the remote call reports failure; only after
`success: true` patch the local `endDate`. The returned store is unchanged
on every error path. -/
def cancelSubscriptionAdmin (now : String) (db : SubDb) (subscriptionId : String)
    (remoteCancel : String → StripeCancelResult) : SubDb × Except String String :=
  match db.find? (fun s => s._id == subscriptionId) with
  | none => (db, .error "Subscription not found")
  | some subscription =>
    if subscription.stripeSubscriptionId != "" then
      match remoteCancel subscription.stripeSubscriptionId with
      | .failure e => (db, .error ("Failed to cancel subscription in Stripe: " ++ e))
      | .success _ =>
        match updateSubscriptionEndDate now db subscriptionId now with
        | .error e => (db, .error e)
        | .ok db2 => (db2, .ok subscriptionId)
    else
      match updateSubscriptionEndDate now db subscriptionId now with
      | .error e => (db, .error e)
      | .ok db2 => (db2, .ok subscriptionId)

/-- UI flow `handleCancelSubscription` (src/src/UserPage.tsx 175-200):
call the remote cancel first, throw on `success: false`, and only then run
the local `cancelSubscription` mutation. -/
def handleCancelSubscription (now : String) (db : SubDb) (sub : Subscription)
    (remoteCancel : String → StripeCancelResult) : SubDb × Except String Bool :=
  match remoteCancel sub.stripeSubscriptionId with
  | .failure e =>
    (db, .error (if e != "" then e else "Failed to cancel subscription in Stripe"))
  | .success _ => cancelSubscriptionMutation now db sub._id

/-! Checkout orchestrator (src/convex/checkout.ts). -/

/-- The `mode` expression of the checkout session request
(src/convex/checkout.ts 73). -/
def checkoutMode (t : String) : String :=
  if t == "monthly" || t == "annual" || t == "weekly" then "subscription" else "payment"

/-- The request handed to `stripe.checkout.sessions.create`
(src/convex/checkout.ts 72-95); producing one models issuing the remote
checkout-session creation call. -/
structure SessionRequest where
  mode : String
  linePriceId : String
  quantity : Int
  successUrl : String
  cancelUrl : String
  customerEmail : Option String
  clientReferenceId : String
  metaUserId : String
  metaGarageId : String
  metaProductId : String
  metaPriceId : String
  metaSeats : String
  metaGarageName : String
  metaProductName : String
  deriving DecidableEq

/-- Action `createCheckoutSession` (src/convex/checkout.ts 34-112). The
four `Option` arguments are the results of the four lookup queries; the
action performs no subscription write on any path, so the subscriptions
table passes through unchanged. Thrown errors and `{ success: false }`
returns are both `Except.error`. -/
def createCheckoutSession (baseUrl : String) (db : SubDb)
    (price? : Option Price) (product? : Option Product)
    (user? : Option User) (garage? : Option Garage)
    (userId garageId productId priceId : String) (quantity : Int) :
    SubDb × Except String SessionRequest :=
  match price?, product?, user?, garage? with
  | some price, some product, some user, some garage =>
    if !optTruthy price.stripePriceId then
      (db, .error "This price doesn't have a Stripe price ID. Please contact support.")
    else
      (db, .ok {
        mode := checkoutMode product.type
        linePriceId := price.stripePriceId.getD ""
        quantity := quantity
        successUrl := baseUrl ++ "/user?userId=" ++ userId
          ++ "&checkout=success&session_id=\x7bCHECKOUT_SESSION_ID\x7d"
        cancelUrl := baseUrl ++ "/user?userId=" ++ userId ++ "&checkout=cancelled"
        customerEmail := if optTruthy user.email then user.email else none
        clientReferenceId := userId
        metaUserId := userId
        metaGarageId := garageId
        metaProductId := productId
        metaPriceId := priceId
        metaSeats := toString quantity
        metaGarageName := garage.name
        metaProductName := product.name })
  | _, _, _, _ => (db, .error "Invalid price, product, user, or garage")

/-! Webhook ingestion endpoints. -/

/-- The parsed event envelope handed to the router; `payload` stands for
`JSON.stringify(event.data.object)`. -/
structure StripeEvent where
  id : String
  type : String
  payload : String
  deriving DecidableEq

/-- The `/stripe/webhook` route of src/unnamed/part_004 (32-91): missing
signature is 400, missing secret is 500, then `constructEvent` recomputes
the HMAC over the raw body — mismatch (or an unparsable body) is 400 with
no dispatched event; only a verified event reaches the router (200, or 500
when the handler throws). `hmac` and `parseEvent` abstract the crypto
library and JSON parsing. -/
def stripeWebhookRoute (hmac : String → String → String)
    (parseEvent : String → Option StripeEvent)
    (secret? signature? : Option String) (body : String) (handlerOk : Bool) :
    Nat × Option StripeEvent :=
  match signature? with
  | none => (400, none)
  | some signature =>
    match secret? with
    | none => (500, none)
    | some secret =>
      if hmac secret body == signature then
        match parseEvent body with
        | none => (400, none)
        | some event => if handlerOk then (200, some event) else (500, some event)
      else (400, none)

/-- The `/stripe/webhook` route of src/convex/http.ts (28-96): when both a
webhook secret and a signature header are (truthily) present the body is
verified exactly as in `stripeWebhookRoute`; otherwise the body is parsed
without verification (POC mode). -/
def stripeWebhookRoutePoc (hmac : String → String → String)
    (parseEvent : String → Option StripeEvent)
    (secret? signature? : Option String) (body : String) (handlerOk : Bool) :
    Nat × Option StripeEvent :=
  if optTruthy secret? && optTruthy signature? then
    if hmac (secret?.getD "") body == signature?.getD "" then
      match parseEvent body with
      | none => (400, none)
      | some event => if handlerOk then (200, some event) else (500, some event)
    else (400, none)
  else
    match parseEvent body with
    | none => (400, none)
    | some event => if handlerOk then (200, some event) else (500, some event)

/-! Product / price update handlers (src/unnamed/part_003 revision of
admin mutations; webhook side from src/convex/webhooks.ts and
TESTING.md). -/

/-- Mutation `updateProductPrice` (src/unnamed/part_003 1035-1075): patch
name, amount, active and public flags; the Stripe price id is kept unless
a truthy replacement is supplied. The scheduled outbound Stripe update
touches no local row. -/
def updateProductPrice (now : String) (prices : List Price) (priceId : String)
    (name : String) (amount : Int) (isActive isPublic : Bool)
    (stripePriceId? : Option String) : Except String (List Price) :=
  match prices.find? (fun p => p._id == priceId) with
  | none => .error "Price not found"
  | some price =>
    .ok (prices.map (fun p =>
      if p._id == priceId then
        { p with name := name, amount := amount, isActive := isActive,
                 isPublic := isPublic,
                 stripePriceId :=
                   if optTruthy stripePriceId? then stripePriceId?
                   else price.stripePriceId,
                 updatedAt := now }
      else p))

/-- Internal action `updatePriceFromStripe` (src/convex/webhooks.ts
332-349): update the price taking only the active flag from the event and
placeholder values for every other required field. -/
def updatePriceFromStripe (now : String) (prices : List Price)
    (priceId : String) (isActive : Bool) : Except String (List Price) :=
  updateProductPrice now prices priceId "Updated from Stripe" 0 isActive true none

/-- Query `findPriceByStripeId` (src/convex/webhooks.ts 291-299). -/
def findPriceByStripeId (prices : List Price) (spid : String) : List Price :=
  prices.filter (fun p => p.stripePriceId == some spid)

/-- Payload of a `price.updated` event. -/
structure PriceUpdatedEvent where
  id : String
  active : Bool
  deriving DecidableEq

/-- Handler `handlePriceUpdated` (src/convex/webhooks.ts 178-199): find the
local price by the event's Stripe id and run `updatePriceFromStripe`. -/
def handlePriceUpdated (now : String) (prices : List Price)
    (ev : PriceUpdatedEvent) : Except String (List Price) :=
  match (findPriceByStripeId prices ev.id).head? with
  | none => .ok prices
  | some price => updatePriceFromStripe now prices price._id ev.active

/-- Mutation `updateProduct` (src/unnamed/part_003 894-931): patch name,
active flag, type and seat count; the Stripe product id is kept unless a
truthy replacement is supplied. -/
def updateProduct (now : String) (products : List Product) (productId : String)
    (name : String) (isActive : Bool) (type : String) (availableSeats : Int)
    (stripeProductId? : Option String) : Except String (List Product) :=
  match products.find? (fun p => p._id == productId) with
  | none => .error "Product not found"
  | some product =>
    .ok (products.map (fun p =>
      if p._id == productId then
        { p with name := name, isActive := isActive, type := type,
                 availableSeats := availableSeats,
                 stripeProductId :=
                   if optTruthy stripeProductId? then stripeProductId?
                   else product.stripeProductId,
                 updatedAt := now }
      else p))

/-- Internal action `updateProductFromStripe` (src/convex/webhooks.ts
308-327): update the product taking name and active flag from the event
and placeholders `"monthly"` / `1` for type and seats. -/
def updateProductFromStripe (now : String) (products : List Product)
    (productId name : String) (isActive : Bool) : Except String (List Product) :=
  updateProduct now products productId name isActive "monthly" 1 none

/-- Query `findProductByStripeId` (src/convex/webhooks.ts 278-286). -/
def findProductByStripeId (products : List Product) (spid : String) : List Product :=
  products.filter (fun p => p.stripeProductId == some spid)

/-- Payload of a `product.updated` event. -/
structure ProductUpdatedEvent where
  id : String
  name : String
  active : Bool
  deriving DecidableEq

/-- Handler `handleProductUpdated` (src/convex/webhooks.ts 130-152). -/
def handleProductUpdated (now : String) (products : List Product)
    (ev : ProductUpdatedEvent) : Except String (List Product) :=
  match (findProductByStripeId products ev.id).head? with
  | none => .ok products
  | some product => updateProductFromStripe now products product._id ev.name ev.active

/-! The at-most-one-active invariant (spec section 3). -/

/-- Two rows witness a violation when they carry the same
(user, garage, product) triple and both have a null end timestamp. -/
def sameActiveTriple (a b : Subscription) : Prop :=
  a.userId = b.userId ∧ a.garageId = b.garageId ∧ a.productId = b.productId
    ∧ a.endDate = none ∧ b.endDate = none

instance : DecidableRel sameActiveTriple := fun a b => by
  unfold sameActiveTriple; infer_instance

/-- At most one subscription per (user, garage, product) with a null end
timestamp. -/
def atMostOneActivePer (db : SubDb) : Prop :=
  List.Pairwise (fun a b => ¬ sameActiveTriple a b) db

/-- The invariant is decidable row by row. -/
def decAtMostOneActivePer : (db : SubDb) → Decidable (atMostOneActivePer db)
  | [] => .isTrue List.Pairwise.nil
  | s :: rest =>
    letI := decAtMostOneActivePer rest
    decidable_of_iff ((∀ b ∈ rest, ¬ sameActiveTriple s b) ∧ atMostOneActivePer rest)
      (by unfold atMostOneActivePer; rw [List.pairwise_cons])

instance (db : SubDb) : Decidable (atMostOneActivePer db) := decAtMostOneActivePer db

/-! Sample rows, shared by the concrete witnesses below. -/

/-- A sample user row. -/
def sampleUser : User :=
  { _id := "u1", firstName := "Ada", lastName := "Jones", email := some "ada@example.com",
    phone := none, stripeUserId := none, createdAt := "T0", updatedAt := "T0" }

/-- A sample garage row. -/
def sampleGarage : Garage :=
  { _id := "g1", name := "Central Garage", createdAt := "T0", updatedAt := "T0" }

/-- A sample active monthly product row. -/
def sampleProduct : Product :=
  { _id := "p1", name := "Monthly Pass", isActive := true, type := "monthly",
    availableSeats := 10, stripeProductId := some "prod_1", garageId := "g1",
    createdAt := "T0", updatedAt := "T0" }

/-- A sample price row whose Stripe price id is null. -/
def samplePriceNoStripe : Price :=
  { _id := "r1", productId := "p1", isActive := true, name := "Standard", amount := 5000,
    stripePriceId := none, isPublic := true, createdAt := "T0", updatedAt := "T0" }

/-- A sample price row carrying a Stripe price id. -/
def samplePrice : Price :=
  { _id := "r2", productId := "p1", isActive := true, name := "Standard", amount := 5000,
    stripePriceId := some "price_1", isPublic := true, createdAt := "T0", updatedAt := "T0" }

/-- A sample subscription row that is still active (`endDate = null`). -/
def sampleActiveSub : Subscription :=
  { _id := "s1", userId := "u1", garageId := "g1", productId := "p1", startDate := "T0",
    endDate := none, dueDate := none, stripeSubscriptionId := "sub_x", seats := 1,
    createdAt := "T0", updatedAt := "T0" }

/-! Generic helper lemmas about the patch-by-id write pattern. -/

/-- A pointwise relation lifts to `Forall₂` between a list and its map. -/
theorem forall₂_of_map_pointwise {α : Type} (db : List α) (g : α → α)
    (R : α → α → Prop) (h : ∀ s, R s (g s)) : List.Forall₂ R db (db.map g) := by
  rw [List.forall₂_map_right_iff, List.forall₂_same]
  intro s _
  exact h s

/-- A reflexive-on-members relation holds between a list and itself. -/
theorem forall₂_of_refl {α : Type} (db : List α) (R : α → α → Prop)
    (h : ∀ s, R s s) : List.Forall₂ R db db := by
  rw [List.forall₂_same]
  intro s _
  exact h s

/-- `patchSubById` relates every row to its (possibly rewritten) image. -/
theorem forall₂_patchSubById (db : SubDb) (id : String) (f : Subscription → Subscription)
    (R : Subscription → Subscription → Prop)
    (hrefl : ∀ s, R s s) (hf : ∀ s, R s (f s)) :
    List.Forall₂ R db (patchSubById db id f) := by
  unfold patchSubById
  apply forall₂_of_map_pointwise
  intro s
  by_cases h : (s._id == id) = true
  · rw [if_pos h]; exact hf s
  · rw [if_neg h]; exact hrefl s

/-- The monotonic-latch relation: a non-null end timestamp stays non-null. -/
def preservesEnd (s t : Subscription) : Prop :=
  s.endDate ≠ none → t.endDate ≠ none

/-- `updateSubscriptionStatus` writes a non-null end date, so it preserves
the latch. -/
theorem forall₂_preservesEnd_updateSubscriptionStatus (now : String) (db : SubDb)
    (sid endDate : String) :
    List.Forall₂ preservesEnd db (updateSubscriptionStatus now db sid endDate) := by
  unfold updateSubscriptionStatus
  apply forall₂_patchSubById
  · intro s h; exact h
  · intro s _; simp

/-- `updateSubscriptionInDb` either keeps the end date or writes a non-null
one, so it preserves the latch. -/
theorem forall₂_preservesEnd_updateSubscriptionInDb (now : String) (db : SubDb)
    (sid : String) (endDate? : Option String) (seats? : Option Int) :
    List.Forall₂ preservesEnd db (updateSubscriptionInDb now db sid endDate? seats?) := by
  unfold updateSubscriptionInDb
  apply forall₂_patchSubById
  · intro s h; exact h
  · intro s h
    cases endDate? with
    | some e => simp
    | none => simpa using h

/-- `expireSubscription` preserves the latch. -/
theorem forall₂_preservesEnd_expireSubscription (now : String) (db : SubDb)
    (sid : String) :
    List.Forall₂ preservesEnd db (expireSubscription now db sid) := by
  unfold expireSubscription
  split
  · exact forall₂_of_refl db _ (fun s h => h)
  · split
    · exact forall₂_preservesEnd_updateSubscriptionStatus now db sid now
    · exact forall₂_of_refl db _ (fun s h => h)

/-- C2: for every Subscription whose end timestamp is non-null, processing
any subsequent webhook event of the three types concerning subscriptions —
invoice payment failed, subscription updated, subscription deleted — leaves
the end timestamp non-null: no handler ever writes null into an already-set
end timestamp. -/
theorem subscription_endDate_monotonic_latch (now : String) (db : SubDb)
    (evI : InvoicePaymentFailedEvent) (evU : SubscriptionUpdatedEvent)
    (evD : SubscriptionDeletedEvent) :
    List.Forall₂ preservesEnd db (handleInvoicePaymentFailed now db evI)
    ∧ List.Forall₂ preservesEnd db (handleSubscriptionUpdated now db evU)
    ∧ List.Forall₂ preservesEnd db (handleSubscriptionDeleted now db evD) := by
  refine ⟨?_, ?_, ?_⟩
  · unfold handleInvoicePaymentFailed
    split
    · exact forall₂_of_refl db _ (fun s h => h)
    · split
      · exact forall₂_preservesEnd_expireSubscription now db _
      · exact forall₂_of_refl db _ (fun s h => h)
  · unfold handleSubscriptionUpdated
    split
    · exact forall₂_of_refl db _ (fun s h => h)
    · exact forall₂_preservesEnd_updateSubscriptionInDb now db _ _ _
  · unfold handleSubscriptionDeleted
    split
    · exact forall₂_of_refl db _ (fun s h => h)
    · split
      · exact forall₂_preservesEnd_updateSubscriptionStatus now db _ _
      · exact forall₂_of_refl db _ (fun s h => h)

/-- C6: when the webhook secret is configured and a signature header is
present but the HMAC recomputed over the (tampered) raw body does not match
the signature, both revisions of the `/stripe/webhook` endpoint answer
HTTP 400 and dispatch no event to the router, so no Catalog Store mutation
can occur. -/
theorem webhook_signature_mismatch_rejected
    (hmac : String → String → String) (parseEvent : String → Option StripeEvent)
    (secret signature body : String) (handlerOk : Bool)
    (hsec : secret ≠ "") (hsig : signature ≠ "")
    (hmismatch : hmac secret body ≠ signature) :
    stripeWebhookRoute hmac parseEvent (some secret) (some signature) body handlerOk
      = (400, none)
    ∧ stripeWebhookRoutePoc hmac parseEvent (some secret) (some signature) body handlerOk
      = (400, none) := by
  have hb : (hmac secret body == signature) = false := by
    simpa using hmismatch
  have h1 : optTruthy (some secret) = true := by simpa [optTruthy] using hsec
  have h2 : optTruthy (some signature) = true := by simpa [optTruthy] using hsig
  constructor
  · simp [stripeWebhookRoute, hb]
  · simp [stripeWebhookRoutePoc, h1, h2, hb]

/-- C6 witness: a concrete tampered delivery is rejected by both endpoint
revisions. -/
theorem webhook_signature_mismatch_rejected_witness :
    stripeWebhookRoute (fun s b => s ++ b) (fun _ => none)
        (some "whsec_1") (some "whsec_1original") "tampered" true = (400, none)
    ∧ stripeWebhookRoutePoc (fun s b => s ++ b) (fun _ => none)
        (some "whsec_1") (some "whsec_1original") "tampered" true = (400, none) :=
  webhook_signature_mismatch_rejected (fun s b => s ++ b) (fun _ => none)
    "whsec_1" "whsec_1original" "tampered" true
    (by decide) (by decide) (by decide)

/-- C7: a checkout request whose Price has a null external price id is
answered with the configuration error, the subscriptions table is left
unchanged, and no checkout-session creation request is produced. -/
theorem checkout_null_price_rejected (baseUrl : String) (db : SubDb)
    (price : Price) (product : Product) (user : User) (garage : Garage)
    (userId garageId productId priceId : String) (quantity : Int)
    (hnull : price.stripePriceId = none) :
    createCheckoutSession baseUrl db (some price) (some product) (some user) (some garage)
        userId garageId productId priceId quantity
      = (db, Except.error "This price doesn't have a Stripe price ID. Please contact support.") := by
  have h : optTruthy price.stripePriceId = false := by simp [optTruthy, hnull]
  simp [createCheckoutSession, h]

/-- C7 witness: the configuration error at a concrete store and price. -/
theorem checkout_null_price_rejected_witness :
    createCheckoutSession "http://localhost:5173" [sampleActiveSub] (some samplePriceNoStripe)
        (some sampleProduct) (some sampleUser) (some sampleGarage) "u1" "g1" "p1" "r1" 2
      = ([sampleActiveSub],
         Except.error "This price doesn't have a Stripe price ID. Please contact support.") :=
  checkout_null_price_rejected "http://localhost:5173" [sampleActiveSub]
    samplePriceNoStripe sampleProduct sampleUser sampleGarage "u1" "g1" "p1" "r1" 2 rfl

/-- C9: the mode sent in the checkout-session creation call is
`"subscription"` exactly when the product's cadence tag is monthly, weekly
or annual, and `"payment"` for every other tag; and the session request
built by `createCheckoutSession` carries exactly that mode. -/
theorem checkout_mode_matches_cadence :
    (∀ t, checkoutMode t = "subscription" ↔ (t = "monthly" ∨ t = "weekly" ∨ t = "annual"))
    ∧ (∀ t, ¬(t = "monthly" ∨ t = "weekly" ∨ t = "annual") → checkoutMode t = "payment")
    ∧ (∀ baseUrl db price product user garage userId garageId productId priceId quantity req,
        createCheckoutSession baseUrl db (some price) (some product) (some user) (some garage)
            userId garageId productId priceId quantity = (db, Except.ok req) →
        req.mode = checkoutMode product.type) := by
  refine ⟨?_, ?_, ?_⟩
  · intro t
    constructor
    · intro h
      by_contra hn
      push_neg at hn
      obtain ⟨h1, h2, h3⟩ := hn
      rw [checkoutMode] at h
      rw [if_neg (by simp [h1, h2, h3])] at h
      exact absurd h (by decide)
    · rintro (rfl | rfl | rfl) <;> rfl
  · intro t h
    push_neg at h
    obtain ⟨h1, h2, h3⟩ := h
    rw [checkoutMode, if_neg (by simp [h1, h2, h3])]
  · intro baseUrl db price product user garage userId garageId productId priceId quantity req h
    by_cases hp : optTruthy price.stripePriceId = true
    · simp only [createCheckoutSession, hp, Bool.not_true, Bool.false_eq_true, if_false,
        Prod.mk.injEq, Except.ok.injEq] at h
      rw [← h.2]
    · rw [Bool.not_eq_true] at hp
      simp [createCheckoutSession, hp] at h

/-- C9 witness: the concrete monthly product yields mode subscription. -/
theorem checkout_mode_matches_cadence_witness :
    checkoutMode "monthly" = "subscription" ∧ checkoutMode "weekend" = "payment" :=
  ⟨(checkout_mode_matches_cadence.1 "monthly").2 (Or.inl rfl),
   checkout_mode_matches_cadence.2.1 "weekend" (by decide)⟩

/-! Claim C1: idempotent creation. -/

/-- A complete metadata bag as the checkout orchestrator attaches it. -/
def sampleMeta : SubMetadata :=
  { userId := some "u1", garageId := some "g1", productId := some "p1",
    priceId := some "r2", seats := some "2", productName := some "Monthly Pass" }

/-- A checkout completed event carrying an external subscription id. -/
def sampleCheckoutEvent : CheckoutSessionEvent :=
  { id := "cs_1", subscription := some "sub_dup", metadata := some sampleMeta }

/-- A subscription created event. -/
def sampleSubCreatedEvent : SubscriptionCreatedEvent :=
  { id := "sub_new", metadata := some sampleMeta, current_period_start := 1700000000 }

/-- C1 counterexample: `handleCheckoutCompleted` performs no lookup by
external subscription id before inserting, so delivering the same checkout
completed creation event (external subscription id `"sub_dup"`) twice to an
empty store leaves two local Subscription rows with that id, not exactly
one. -/
theorem checkout_completed_duplicate_two_rows :
    (findSubscriptionByStripeId
        (handleCheckoutCompleted "T2" "s2"
          (handleCheckoutCompleted "T1" "s1" [] sampleCheckoutEvent) sampleCheckoutEvent)
        "sub_dup").length = 2
    ∧ ¬ (findSubscriptionByStripeId
        (handleCheckoutCompleted "T2" "s2"
          (handleCheckoutCompleted "T1" "s1" [] sampleCheckoutEvent) sampleCheckoutEvent)
        "sub_dup").length = 1 := by
  decide

/-- When a row with the event's external subscription id is already
present, `handleSubscriptionCreated` leaves the store untouched. -/
theorem handleSubscriptionCreated_noop_of_found (now newId : String) (db : SubDb)
    (ev : SubscriptionCreatedEvent) (h : findSubscriptionByStripeId db ev.id ≠ []) :
    handleSubscriptionCreated now newId db ev = db := by
  unfold handleSubscriptionCreated
  cases hm : ev.metadata with
  | none => rfl
  | some m =>
    dsimp only
    by_cases hc : (!optTruthy m.userId || !optTruthy m.garageId
        || !optTruthy m.productId || !optTruthy m.priceId) = true
    · rw [if_pos hc]
    · rw [if_neg hc, if_pos]
      simpa using h

/-- C1 amended: the subscription-created handler does look up an existing
local Subscription by the event's external subscription id and skips the
insert when one is found, so delivering the same subscription created
event twice to a store not yet containing that id leaves exactly one
local Subscription row; the checkout-completed handler has no such lookup
(see the counterexample). -/
theorem subscription_created_duplicate_one_row
    (now1 now2 id1 id2 : String) (db : SubDb) (ev : SubscriptionCreatedEvent)
    (m : SubMetadata) (hm : ev.metadata = some m)
    (hu : optTruthy m.userId = true) (hg : optTruthy m.garageId = true)
    (hp : optTruthy m.productId = true) (hr : optTruthy m.priceId = true)
    (habsent : findSubscriptionByStripeId db ev.id = []) :
    (findSubscriptionByStripeId
      (handleSubscriptionCreated now2 id2 (handleSubscriptionCreated now1 id1 db ev) ev)
      ev.id).length = 1 := by
  have step1 : handleSubscriptionCreated now1 id1 db ev
      = createSubscription now1 id1 db (m.userId.getD "") (m.garageId.getD "")
          (m.productId.getD "") (isoOfEpochSeconds ev.current_period_start) ev.id
          (jsParseInt (jsOrStr m.seats "1")) := by
    simp [handleSubscriptionCreated, hm, hu, hg, hp, hr, habsent]
  have step2 : findSubscriptionByStripeId (handleSubscriptionCreated now1 id1 db ev) ev.id
      = [⟨id1, m.userId.getD "", m.garageId.getD "", m.productId.getD "",
          isoOfEpochSeconds ev.current_period_start, none, none, ev.id,
          jsParseInt (jsOrStr m.seats "1"), now1, now1⟩] := by
    rw [step1]
    unfold createSubscription findSubscriptionByStripeId
    rw [List.filter_append]
    unfold findSubscriptionByStripeId at habsent
    rw [habsent]
    simp
  have step3 : handleSubscriptionCreated now2 id2 (handleSubscriptionCreated now1 id1 db ev) ev
      = handleSubscriptionCreated now1 id1 db ev :=
    handleSubscriptionCreated_noop_of_found now2 id2 _ ev (by rw [step2]; simp)
  rw [step3, step2]
  rfl

/-- C1 amended witness: duplicate delivery of the concrete subscription
created event to an empty store yields exactly one row. -/
theorem subscription_created_duplicate_one_row_witness :
    (findSubscriptionByStripeId
      (handleSubscriptionCreated "T2" "n2"
        (handleSubscriptionCreated "T1" "n1" [] sampleSubCreatedEvent) sampleSubCreatedEvent)
      "sub_new").length = 1 :=
  subscription_created_duplicate_one_row "T1" "T2" "n1" "n2" [] sampleSubCreatedEvent
    sampleMeta rfl rfl rfl rfl rfl rfl

/-! Claim C3: the grace-period boundary of the payment-failure policy. -/

/-- `find?` only depends on the predicate's values on the list. -/
theorem find?_congr_on {α : Type} (l : List α) (p q : α → Bool)
    (h : ∀ a ∈ l, p a = q a) : l.find? p = l.find? q := by
  induction l with
  | nil => rfl
  | cons a l ih =>
    rw [List.find?_cons, List.find?_cons, h a (by simp)]
    cases q a
    · exact ih (fun b hb => h b (by simp [hb]))
    · rfl

/-- Looking a subscription up by external id after a patch that does not
touch the external id finds the patched image of the original lookup. -/
theorem findSubscriptionByStripeId_patchSubById (db : SubDb) (id sid : String)
    (f : Subscription → Subscription)
    (hf : ∀ s, (f s).stripeSubscriptionId = s.stripeSubscriptionId) :
    findSubscriptionByStripeId (patchSubById db id f) sid
      = (findSubscriptionByStripeId db sid).map
          (fun s => if s._id == id then f s else s) := by
  unfold findSubscriptionByStripeId patchSubById
  rw [List.filter_map]
  congr 1
  apply List.filter_congr
  intro a _
  show ((if (a._id == id) = true then f a else a).stripeSubscriptionId == sid)
    = (a.stripeSubscriptionId == sid)
  by_cases hb : (a._id == id) = true
  · rw [if_pos hb, hf]
  · rw [if_neg hb]

/-- Looking a subscription up by `_id` after a patch that keeps every row's
`_id` finds the patched image of the original lookup. -/
theorem find?Id_patchSubById (db : SubDb) (id tid : String)
    (f : Subscription → Subscription) (hf : ∀ s, (f s)._id = s._id) :
    (patchSubById db id f).find? (fun r => r._id == tid)
      = (db.find? (fun r => r._id == tid)).map
          (fun s => if s._id == id then f s else s) := by
  unfold patchSubById
  rw [List.find?_map]
  congr 1
  apply find?_congr_on
  intro a _
  show ((if (a._id == id) = true then f a else a)._id == tid) = (a._id == tid)
  by_cases hb : (a._id == id) = true
  · rw [if_pos hb, hf]
  · rw [if_neg hb]

/-- `expireSubscription` is a no-op on a row whose end date is already
set. -/
theorem expireSubscription_noop (now : String) (db : SubDb) (sid : String)
    (t : Subscription) (hget : getSubscription db sid = some t)
    (hne : t.endDate ≠ none) : expireSubscription now db sid = db := by
  unfold expireSubscription
  rw [hget]
  dsimp only
  rw [if_neg (by simpa using hne)]

/-- C3: for a Subscription with a null end timestamp, an invoice payment
failed event with attempt count 2 leaves the store untouched (end
timestamp still null); attempt count 3 sets the row's end timestamp to the
non-null current time; a further attempt-4 event for the same subscription
then leaves the store — in particular the already-set end timestamp —
unchanged. -/
theorem invoice_payment_failed_grace_boundary
    (now2 now3 now4 i2 i3 i4 sid : String) (db : SubDb) (s : Subscription)
    (hfound : (findSubscriptionByStripeId db sid).head? = some s)
    (hid : db.find? (fun r => r._id == s._id) = some s)
    (hnull : s.endDate = none) :
    handleInvoicePaymentFailed now2 db ⟨i2, sid, 2⟩ = db
    ∧ (∃ r ∈ handleInvoicePaymentFailed now3 db ⟨i3, sid, 3⟩,
        r._id = s._id ∧ r.endDate = some now3)
    ∧ (∀ r ∈ handleInvoicePaymentFailed now3 db ⟨i3, sid, 3⟩,
        r._id = s._id → r.endDate = some now3)
    ∧ handleInvoicePaymentFailed now4
        (handleInvoicePaymentFailed now3 db ⟨i3, sid, 3⟩) ⟨i4, sid, 4⟩
      = handleInvoicePaymentFailed now3 db ⟨i3, sid, 3⟩ := by
  have hsmem : s ∈ db := List.mem_of_find?_eq_some hid
  have hdb3 : handleInvoicePaymentFailed now3 db ⟨i3, sid, 3⟩
      = patchSubById db s._id
          (fun r => { r with endDate := some now3, updatedAt := now3 }) := by
    unfold handleInvoicePaymentFailed
    rw [show (⟨i3, sid, 3⟩ : InvoicePaymentFailedEvent).subscription = sid from rfl, hfound]
    dsimp only
    rw [if_pos (by decide)]
    unfold expireSubscription getSubscription
    rw [hid]
    dsimp only
    rw [if_pos (by rw [hnull]; rfl)]
    rfl
  refine ⟨?_, ?_, ?_, ?_⟩
  · unfold handleInvoicePaymentFailed
    rw [show (⟨i2, sid, 2⟩ : InvoicePaymentFailedEvent).subscription = sid from rfl, hfound]
    dsimp only
    rw [if_neg (by decide)]
  · rw [hdb3]
    refine ⟨{ s with endDate := some now3, updatedAt := now3 }, ?_, rfl, rfl⟩
    unfold patchSubById
    exact List.mem_map.mpr ⟨s, hsmem, by simp⟩
  · rw [hdb3]
    intro r hr hideq
    unfold patchSubById at hr
    obtain ⟨r0, _, rfl⟩ := List.mem_map.mp hr
    by_cases hb : (r0._id == s._id) = true
    · rw [if_pos hb]
    · rw [if_neg hb] at hideq ⊢
      exact absurd (by rw [hideq]; simp) hb
  · rw [hdb3]
    have hfid : ∀ r : Subscription,
        ({ r with endDate := some now3, updatedAt := now3 } : Subscription)._id = r._id :=
      fun r => rfl
    have hfstr : ∀ r : Subscription,
        ({ r with endDate := some now3, updatedAt := now3 } : Subscription).stripeSubscriptionId
          = r.stripeSubscriptionId :=
      fun r => rfl
    obtain ⟨t, hfind3, hget3, htne⟩ : ∃ t,
        (findSubscriptionByStripeId
          (patchSubById db s._id
            (fun r => { r with endDate := some now3, updatedAt := now3 })) sid).head? = some t
        ∧ getSubscription
            (patchSubById db s._id
              (fun r => { r with endDate := some now3, updatedAt := now3 })) t._id = some t
        ∧ t.endDate ≠ none := by
      refine ⟨{ s with endDate := some now3, updatedAt := now3 }, ?_, ?_, by simp⟩
      · rw [findSubscriptionByStripeId_patchSubById db s._id sid _ hfstr]
        rw [List.head?_map, hfound]
        simp
      · show getSubscription _ s._id = _
        unfold getSubscription
        rw [find?Id_patchSubById db s._id s._id _ hfid, hid]
        simp
    unfold handleInvoicePaymentFailed
    rw [show (⟨i4, sid, 4⟩ : InvoicePaymentFailedEvent).subscription = sid from rfl, hfind3]
    dsimp only
    rw [if_pos (by decide)]
    exact expireSubscription_noop now4 _ t._id t hget3 htne

/-- C3 witness: the boundary at a concrete one-row store. -/
theorem invoice_payment_failed_grace_boundary_witness :
    handleInvoicePaymentFailed "T2" [sampleActiveSub] ⟨"in_2", "sub_x", 2⟩ = [sampleActiveSub]
    ∧ (∃ r ∈ handleInvoicePaymentFailed "T3" [sampleActiveSub] ⟨"in_3", "sub_x", 3⟩,
        r._id = sampleActiveSub._id ∧ r.endDate = some "T3")
    ∧ (∀ r ∈ handleInvoicePaymentFailed "T3" [sampleActiveSub] ⟨"in_3", "sub_x", 3⟩,
        r._id = sampleActiveSub._id → r.endDate = some "T3")
    ∧ handleInvoicePaymentFailed "T4"
        (handleInvoicePaymentFailed "T3" [sampleActiveSub] ⟨"in_3", "sub_x", 3⟩)
        ⟨"in_4", "sub_x", 4⟩
      = handleInvoicePaymentFailed "T3" [sampleActiveSub] ⟨"in_3", "sub_x", 3⟩ :=
  invoice_payment_failed_grace_boundary "T2" "T3" "T4" "in_2" "in_3" "in_4" "sub_x"
    [sampleActiveSub] sampleActiveSub rfl rfl rfl

/-! Claim C4: cancellation ordering. -/

/-- Rows matching the patched id get the written end date. -/
theorem patchSubById_sets_endDate (db : SubDb) (id now e : String) :
    ∀ r ∈ patchSubById db id (fun s => { s with endDate := some e, updatedAt := now }),
      r._id = id → r.endDate = some e := by
  intro r hr hid2
  unfold patchSubById at hr
  obtain ⟨r0, _, rfl⟩ := List.mem_map.mp hr
  by_cases hb : (r0._id == id) = true
  · rw [if_pos hb]
  · rw [if_neg hb] at hid2 ⊢
    exact absurd (by rw [hid2]; simp) hb

/-- C4: a local cancellation request on a Subscription carrying an external
subscription id invokes the remote cancel first; when the remote call
reports failure, both cancellation paths (the admin action and the user
page flow) leave the store unchanged and surface a failure; only on
`success: true` is the row's end timestamp written. -/
theorem cancellation_remote_first
    (now : String) (db : SubDb) (subscriptionId : String) (sub : Subscription)
    (remote : String → StripeCancelResult)
    (hfind : db.find? (fun s => s._id == subscriptionId) = some sub)
    (hsid : sub.stripeSubscriptionId ≠ "") :
    (∀ e, remote sub.stripeSubscriptionId = .failure e →
      cancelSubscriptionAdmin now db subscriptionId remote
        = (db, .error ("Failed to cancel subscription in Stripe: " ++ e)))
    ∧ (∀ info, remote sub.stripeSubscriptionId = .success info →
        (cancelSubscriptionAdmin now db subscriptionId remote).2 = .ok subscriptionId
        ∧ ∀ r ∈ (cancelSubscriptionAdmin now db subscriptionId remote).1,
            r._id = subscriptionId → r.endDate = some now)
    ∧ (∀ e, remote sub.stripeSubscriptionId = .failure e →
        (handleCancelSubscription now db sub remote).1 = db
        ∧ ∃ msg, (handleCancelSubscription now db sub remote).2 = .error msg) := by
  have hbne : (sub.stripeSubscriptionId != "") = true := by simpa using hsid
  refine ⟨?_, ?_, ?_⟩
  · intro e hrem
    unfold cancelSubscriptionAdmin
    rw [hfind]
    dsimp only
    rw [hbne, if_pos rfl, hrem]
  · intro info hrem
    have hstep : cancelSubscriptionAdmin now db subscriptionId remote
        = (patchSubById db subscriptionId
            (fun s => { s with endDate := some now, updatedAt := now }), .ok subscriptionId) := by
      unfold cancelSubscriptionAdmin
      rw [hfind]
      dsimp only
      rw [hbne, if_pos rfl, hrem]
      unfold updateSubscriptionEndDate
      rw [hfind]
    rw [hstep]
    exact ⟨rfl, patchSubById_sets_endDate db subscriptionId now now⟩
  · intro e hrem
    unfold handleCancelSubscription
    rw [hrem]
    exact ⟨rfl, _, rfl⟩

/-- C4 witness: a failing remote cancel leaves the concrete one-row store
untouched on both paths, and a succeeding one writes the end date. -/
theorem cancellation_remote_first_witness :
    cancelSubscriptionAdmin "T9" [sampleActiveSub] "s1" (fun _ => .failure "boom")
      = ([sampleActiveSub], .error "Failed to cancel subscription in Stripe: boom")
    ∧ (handleCancelSubscription "T9" [sampleActiveSub] sampleActiveSub
        (fun _ => .failure "boom")).1 = [sampleActiveSub]
    ∧ (cancelSubscriptionAdmin "T9" [sampleActiveSub] "s1"
        (fun _ => .success "ok")).2 = .ok "s1" :=
  ⟨(cancellation_remote_first "T9" [sampleActiveSub] "s1" sampleActiveSub
      (fun _ => .failure "boom") rfl (by decide)).1 "boom" rfl,
   ((cancellation_remote_first "T9" [sampleActiveSub] "s1" sampleActiveSub
      (fun _ => .failure "boom") rfl (by decide)).2.2 "boom" rfl).1,
   ((cancellation_remote_first "T9" [sampleActiveSub] "s1" sampleActiveSub
      (fun _ => .success "ok") rfl (by decide)).2.1 "ok" rfl).1⟩

/-! Claim C5: the at-most-one-active invariant. -/

/-- A second subscription created event for the same local triple but a
different external subscription id. -/
def sampleSubCreatedEventB : SubscriptionCreatedEvent :=
  { id := "sub_other", metadata := some sampleMeta, current_period_start := 1700000001 }

/-- C5 counterexample: the webhook creation handlers deduplicate only by
external subscription id, so two subscription created events with the same
(user, garage, product) metadata but distinct external ids — a state
reachable from the empty store — leave two rows with a null end timestamp
for the same triple, violating the invariant. -/
theorem active_invariant_violated_by_webhook_creation :
    ¬ atMostOneActivePer
      (handleSubscriptionCreated "T2" "n2"
        (handleSubscriptionCreated "T1" "n1" [] sampleSubCreatedEvent)
        sampleSubCreatedEventB) := by
  decide

/-- C5 amended: the user subscribe mutation does preserve the invariant —
it refuses to insert when an active row for the same (user, garage,
product) triple already exists; the webhook creation handlers check only
the external subscription id and do not (see the counterexample). -/
theorem subscribe_preserves_active_invariant
    (now newId : String) (users : List User) (garages : List Garage)
    (products : List Product) (db : SubDb) (userId garageId productId : String)
    (seats : Int) (db2 : SubDb) (rid : String)
    (hinv : atMostOneActivePer db)
    (hok : subscribe now newId users garages products db userId garageId productId seats
      = .ok (db2, rid)) :
    atMostOneActivePer db2 := by
  unfold subscribe at hok
  split at hok
  · cases hok
  · split at hok
    · cases hok
    · split at hok
      · cases hok
      · split at hok
        · cases hok
        · split at hok
          · cases hok
          · rename_i hhead
            rw [Except.ok.injEq, Prod.mk.injEq] at hok
            obtain ⟨hdb2, _⟩ := hok
            rw [← hdb2]
            have hnil : db.filter (fun s =>
                s.userId == userId && s.garageId == garageId
                  && s.productId == productId && s.endDate == none) = [] := by
              rwa [List.head?_eq_none_iff] at hhead
            have hnone := List.filter_eq_nil_iff.mp hnil
            unfold atMostOneActivePer
            rw [List.pairwise_append]
            refine ⟨hinv, List.pairwise_singleton _ _, ?_⟩
            intro a ha b hb
            rw [List.mem_singleton] at hb
            subst hb
            rintro ⟨h1, h2, h3, h4, _⟩
            exact hnone a ha (by simp [h1, h2, h3, h4])

/-- C5 amended witness: subscribing on an empty store yields a one-row
store satisfying the invariant. -/
theorem subscribe_preserves_active_invariant_witness :
    atMostOneActivePer
      [{ _id := "s9", userId := "u1", garageId := "g1", productId := "p1",
         startDate := "T0", endDate := none, dueDate := none,
         stripeSubscriptionId := "demo_T0", seats := 2,
         createdAt := "T0", updatedAt := "T0" }] :=
  subscribe_preserves_active_invariant "T0" "s9" [sampleUser] [sampleGarage]
    [sampleProduct] [] "u1" "g1" "p1" 2 _ "s9" (by decide) rfl

/-! Claim C8: the frame of the subscription updated handler. -/

/-- Frame of `updateSubscriptionInDb`: every field but seats, end date and
the updated-at bookkeeping field is preserved; the end date is preserved
when not provided, and is never cleared back to null. -/
theorem forall₂_frame_updateSubscriptionInDb (now : String) (db : SubDb)
    (sid : String) (endDate? : Option String) (seats? : Option Int) :
    List.Forall₂ (fun s t =>
      t._id = s._id ∧ t.userId = s.userId ∧ t.garageId = s.garageId
      ∧ t.productId = s.productId ∧ t.startDate = s.startDate
      ∧ t.dueDate = s.dueDate ∧ t.stripeSubscriptionId = s.stripeSubscriptionId
      ∧ t.createdAt = s.createdAt
      ∧ (endDate? = none → t.endDate = s.endDate)
      ∧ (t.endDate = none → s.endDate = none))
      db (updateSubscriptionInDb now db sid endDate? seats?) := by
  unfold updateSubscriptionInDb
  apply forall₂_patchSubById
  · exact fun s => ⟨rfl, rfl, rfl, rfl, rfl, rfl, rfl, rfl, fun _ => rfl, fun h => h⟩
  · intro s
    refine ⟨rfl, rfl, rfl, rfl, rfl, rfl, rfl, rfl, ?_, ?_⟩
    · intro hnone
      rw [hnone]
    · intro ht
      cases hE : endDate? with
      | none => rw [hE] at ht; exact ht
      | some e => rw [hE] at ht; exact absurd ht (by simp)

/-- C8: an inbound subscription updated event may change only the seat
count (and the updated-at bookkeeping field): every other field of every
row is unchanged, the end timestamp is unchanged unless the event carries
status canceled, and the end timestamp is never cleared back to null. -/
theorem subscription_updated_frame (now : String) (db : SubDb)
    (ev : SubscriptionUpdatedEvent) :
    List.Forall₂ (fun s t =>
      t._id = s._id ∧ t.userId = s.userId ∧ t.garageId = s.garageId
      ∧ t.productId = s.productId ∧ t.startDate = s.startDate
      ∧ t.dueDate = s.dueDate ∧ t.stripeSubscriptionId = s.stripeSubscriptionId
      ∧ t.createdAt = s.createdAt
      ∧ (ev.status ≠ "canceled" → t.endDate = s.endDate)
      ∧ (t.endDate = none → s.endDate = none))
      db (handleSubscriptionUpdated now db ev) := by
  unfold handleSubscriptionUpdated
  split
  · exact forall₂_of_refl db _
      (fun s => ⟨rfl, rfl, rfl, rfl, rfl, rfl, rfl, rfl, fun _ => rfl, fun h => h⟩)
  · rename_i subscription heq
    dsimp only
    refine List.Forall₂.imp ?_
      (forall₂_frame_updateSubscriptionInDb now db subscription._id _ _)
    intro a b hab
    obtain ⟨h1, h2, h3, h4, h5, h6, h7, h8, h9, h10⟩ := hab
    refine ⟨h1, h2, h3, h4, h5, h6, h7, h8, ?_, h10⟩
    intro hst
    apply h9
    have hstatus : (ev.status == "canceled") = false := by simpa using hst
    simp [hstatus]

/-! Claim C10: the placeholder overwrites of the price / product updated
paths. -/

/-- C10: an inbound price updated event matching a local Price rewrites
that Price's name to the constant `"Updated from Stripe"`, its amount to 0
and its public flag to true — regardless of the previous values — taking
only the active flag from the event; the product updated path likewise
overwrites the product's type with `"monthly"` and its availableSeats with
1, taking name and active flag from the event. -/
theorem price_product_updated_placeholder_overwrite
    (now now2 : String) (prices : List Price) (products : List Product)
    (evP : PriceUpdatedEvent) (evQ : ProductUpdatedEvent)
    (p : Price) (hp : (findPriceByStripeId prices evP.id).head? = some p)
    (pr : Product) (hpr : (findProductByStripeId products evQ.id).head? = some pr) :
    (∃ prices2, handlePriceUpdated now prices evP = .ok prices2
      ∧ ∀ q ∈ prices2, q._id = p._id →
          q.name = "Updated from Stripe" ∧ q.amount = 0
            ∧ q.isActive = evP.active ∧ q.isPublic = true)
    ∧ (∃ products2, handleProductUpdated now2 products evQ = .ok products2
      ∧ ∀ q ∈ products2, q._id = pr._id →
          q.type = "monthly" ∧ q.availableSeats = 1
            ∧ q.name = evQ.name ∧ q.isActive = evQ.active) := by
  constructor
  · have hmem : p ∈ prices := by
      obtain ⟨ys, hys⟩ := List.head?_eq_some_iff.mp hp
      have : p ∈ findPriceByStripeId prices evP.id := by rw [hys]; exact List.mem_cons_self p ys
      exact (List.mem_filter.mp this).1
    have hsome : ∃ q, prices.find? (fun r => r._id == p._id) = some q := by
      rw [← Option.isSome_iff_exists]
      exact List.find?_isSome.mpr ⟨p, hmem, by simp⟩
    obtain ⟨q, hq⟩ := hsome
    unfold handlePriceUpdated
    rw [hp]
    dsimp only
    unfold updatePriceFromStripe updateProductPrice
    rw [hq]
    refine ⟨_, rfl, ?_⟩
    intro r hr hid2
    obtain ⟨r0, _, rfl⟩ := List.mem_map.mp hr
    by_cases hb : (r0._id == p._id) = true
    · rw [if_pos hb]
      exact ⟨rfl, rfl, rfl, rfl⟩
    · rw [if_neg hb] at hid2 ⊢
      exact absurd (by rw [hid2]; simp) hb
  · have hmem : pr ∈ products := by
      obtain ⟨ys, hys⟩ := List.head?_eq_some_iff.mp hpr
      have : pr ∈ findProductByStripeId products evQ.id := by
        rw [hys]; exact List.mem_cons_self pr ys
      exact (List.mem_filter.mp this).1
    have hsome : ∃ q, products.find? (fun r => r._id == pr._id) = some q := by
      rw [← Option.isSome_iff_exists]
      exact List.find?_isSome.mpr ⟨pr, hmem, by simp⟩
    obtain ⟨q, hq⟩ := hsome
    unfold handleProductUpdated
    rw [hpr]
    dsimp only
    unfold updateProductFromStripe updateProduct
    rw [hq]
    refine ⟨_, rfl, ?_⟩
    intro r hr hid2
    obtain ⟨r0, _, rfl⟩ := List.mem_map.mp hr
    by_cases hb : (r0._id == pr._id) = true
    · rw [if_pos hb]
      exact ⟨rfl, rfl, rfl, rfl⟩
    · rw [if_neg hb] at hid2 ⊢
      exact absurd (by rw [hid2]; simp) hb

/-- C10 witness: the concrete one-price, one-product stores. -/
theorem price_product_updated_placeholder_overwrite_witness :
    (∃ prices2, handlePriceUpdated "T5" [samplePrice] ⟨"price_1", false⟩ = .ok prices2
      ∧ ∀ q ∈ prices2, q._id = samplePrice._id →
          q.name = "Updated from Stripe" ∧ q.amount = 0
            ∧ q.isActive = (⟨"price_1", false⟩ : PriceUpdatedEvent).active ∧ q.isPublic = true)
    ∧ (∃ products2,
        handleProductUpdated "T6" [sampleProduct] ⟨"prod_1", "Renamed", true⟩ = .ok products2
      ∧ ∀ q ∈ products2, q._id = sampleProduct._id →
          q.type = "monthly" ∧ q.availableSeats = 1
            ∧ q.name = (⟨"prod_1", "Renamed", true⟩ : ProductUpdatedEvent).name
            ∧ q.isActive = (⟨"prod_1", "Renamed", true⟩ : ProductUpdatedEvent).active) :=
  price_product_updated_placeholder_overwrite "T5" "T6" [samplePrice] [sampleProduct]
    ⟨"price_1", false⟩ ⟨"prod_1", "Renamed", true⟩ samplePrice rfl sampleProduct rfl

end ParkingAdmin
